import Mathlib

/-!
Verification development for the AIris-Cab front-end client
(`frontend/src/App.tsx` and the flight-comparison component).

The React components are shallowly embedded as pure state-transition
functions.  Each event handler becomes a Lean function from the component
state (plus the transport outcome of any request it issues) to the new
state together with the list of network calls it issued and the list of
console log lines it wrote.  Transport outcomes are `Except Unit α`:
`.ok payload` for a successful response, `.error ()` for any transport
failure.  JavaScript numbers are modelled with `Int`/`Nat`/`ℚ`; the one
place where an IEEE division by zero is observable is modelled explicitly
with the `JsNum` type below.
-/

namespace AIrisCab

/-- Severity of a snackbar notice, from the `severity` union type. -/
inductive Severity
  | success
  | error
deriving DecidableEq

/-- The snackbar state `{ open, message, severity }`.  The source field
`open` is a Lean keyword, rendered here as `openFlag`. -/
structure Snackbar where
  openFlag : Bool
  message : String
  severity : Severity
deriving DecidableEq

/-- The field-scoped validation error state `{pickup?, dropoff?}`. -/
structure FieldErrors where
  pickup : Option String
  dropoff : Option String
deriving DecidableEq

/-- The `PriceEstimate` interface.  `duration` is seconds, `distance` is
miles (a JS number, modelled as a rational). -/
structure PriceEstimate where
  service : String
  price_estimate : String
  duration : Nat
  distance : ℚ
  pickup : String
  dropoff : String
  app_url : String
  web_url : String
  recommended : Bool
  capacity : String
deriving DecidableEq

/-- The `TrackedRoute` interface. -/
structure TrackedRoute where
  id : Nat
  pickup : String
  dropoff : String
  passenger_count : Int
  phone_number : String
  target_price : ℚ
  is_active : Bool
  created_at : String
deriving DecidableEq

/-- Request body of POST `/track-route`.  `target_price` is
`parseFloat(...)`, which can be NaN; NaN is modelled as `none`. -/
structure TrackRouteBody where
  pickup_address : String
  dropoff_address : String
  passenger_count : Int
  phone_number : String
  target_price : Option ℚ
deriving DecidableEq

/-- Request body of POST `/compare-prices`. -/
structure CompareBody where
  pickup_address : String
  dropoff_address : String
  passenger_count : Int
deriving DecidableEq

/-- One outbound HTTP request issued by the component. -/
inductive NetCall
  | postTrackRoute (body : TrackRouteBody)
  | getTrackedRoutes (phone : String)
  | deleteTrackedRoute (id : Nat)
  | postComparePrices (body : CompareBody)
  | getCityAutocomplete (query : String)
deriving DecidableEq

/-! ### Message constants (verbatim from the source) -/

def invalidPhoneMsg : String :=
  "Please enter a valid phone number in E.164 format (e.g., +1XXXXXXXXXX)"

def trackSuccessMsg : String :=
  "Route tracking started! We\x27ll notify you when the price drops below your target."

def trackFailMsg : String := "Failed to start route tracking"

def fetchRoutesFailMsg : String :=
  "Failed to fetch tracked routes. Please make sure your phone number is in E.164 format (+1XXXXXXXXXX)"

def fetchRoutesFailLog : String := "Failed to fetch tracked routes:"

def deleteSuccessMsg : String := "Route tracking stopped and deleted"

def deleteFailMsg : String := "Failed to delete tracked route"

def pickupErrMsg : String := "Please enter a pickup location"

def dropoffErrMsg : String := "Please enter a dropoff location"

def compareFailMsg : String := "Failed to fetch price estimates"

def citySuggestFailLog : String := "Failed to fetch city suggestions:"

def citySuggestFailMsg : String := "Failed to fetch city suggestions. Please try again."

/-- An open error snackbar with the given message. -/
def errorNotice (msg : String) : Snackbar :=
  { openFlag := true, message := msg, severity := Severity.error }

/-- An open success snackbar with the given message. -/
def successNotice (msg : String) : Snackbar :=
  { openFlag := true, message := msg, severity := Severity.success }

/-! ### Phone number validation and JS string/number helpers -/

/-- Test `phoneNumber.match(/^\+[1-9]\d{10,14}$/)` is non-null: a leading `+`,
a digit `1`-`9`, then 10 to 14 further digits. -/
def matchesE164 (p : String) : Bool :=
  match p.data with
  | '+' :: c :: rest =>
      ('1' ≤ c && c ≤ '9') && rest.all Char.isDigit &&
        (decide (10 ≤ rest.length) && decide (rest.length ≤ 14))
  | _ => false

/-- Value of a digit character. -/
def digitVal (c : Char) : Nat := c.toNat - '0'.toNat

/-- Value of a run of decimal digit characters. -/
def natOfDigits (ds : List Char) : Nat :=
  ds.foldl (fun acc c => 10 * acc + digitVal c) 0

/-- Model of `parseFloat` on the decimal-numeral fragment the app feeds it
(currency amounts such as `23.50`): an optional integer part, an optional
`.` with an optional fraction part, trailing junk ignored, NaN (`none`)
when no digit is found.  Signs, exponents and IEEE rounding do not arise
for these inputs and are not modelled. -/
def parseFloatChars (cs : List Char) : Option ℚ :=
  let intDs := cs.takeWhile Char.isDigit
  let rest := cs.drop intDs.length
  match rest with
  | '.' :: rest2 =>
      let fracDs := rest2.takeWhile Char.isDigit
      if intDs.isEmpty && fracDs.isEmpty then none
      else
        some ((natOfDigits intDs : ℚ) + (natOfDigits fracDs : ℚ) / (10 : ℚ) ^ fracDs.length)
  | _ => if intDs.isEmpty then none else some (natOfDigits intDs)

/-- Model of `parseFloat` on a string, via `parseFloatChars`. -/
def parseDecimal (t : String) : Option ℚ := parseFloatChars t.data

/-- Remove the first occurrence of a character, as
`String.prototype.replace` with a single-character pattern does. -/
def removeFirstChar (c : Char) : List Char → List Char
  | [] => []
  | x :: xs => if x = c then xs else x :: removeFirstChar c xs

/-- Function `t.replace('$', '')`: drop the first `$` only. -/
def replaceFirstDollar (t : String) : String := ⟨removeFirstChar '$' t.data⟩

/-- Function `t.slice(1)`: drop the first character. -/
def sliceOne (t : String) : String := ⟨t.data.drop 1⟩

/-- Leading digit run as a number; `none` when it is empty. -/
def parseLeadingNat (cs : List Char) : Option Nat :=
  let ds := cs.takeWhile Char.isDigit
  if ds.isEmpty then none else some (natOfDigits ds)

/-- Model of `parseInt` (radix 10 inputs): skip leading spaces, optional sign,
then a leading digit run; NaN (`none`) when no digit follows.  The hex
auto-detection of bare `parseInt` never fires on these inputs and is not
modelled. -/
def jsParseInt (t : String) : Option Int :=
  match t.data.dropWhile (fun c => c = ' ') with
  | '-' :: rest => (parseLeadingNat rest).map (fun n => -(n : Int))
  | '+' :: rest => (parseLeadingNat rest).map (fun n => (n : Int))
  | cs => (parseLeadingNat cs).map (fun n => (n : Int))

/-- Evaluation of `x || 1` on a JS number that may be NaN: NaN and `0` are falsy. -/
def jsTruthyIntOr1 (x : Option Int) : Int :=
  match x with
  | none => 1
  | some n => if n = 0 then 1 else n

/-! ### JS division with a zero denominator -/

/-- A JS number as far as the rate-per-mile display can observe it. -/
inductive JsNum
  | finite (q : ℚ)
  | posInf
  | negInf
  | nan
deriving DecidableEq

/-- IEEE-style division on exact operands: `x / 0` is `±Infinity` (or
`NaN` for `0 / 0`), otherwise exact. -/
def jsDiv (x y : ℚ) : JsNum :=
  if y = 0 then
    if x = 0 then JsNum.nan else if x > 0 then JsNum.posInf else JsNum.negInf
  else JsNum.finite (x / y)

/-- The rate-per-mile display value (source line:
`parseFloat(estimate.price_estimate.slice(1)) / estimate.distance`): the
division is unconditional, with no guard on `distance = 0`. -/
def ratePerMile (e : PriceEstimate) : JsNum :=
  match parseDecimal (sliceOne e.price_estimate) with
  | some q => jsDiv q e.distance
  | none => JsNum.nan

/-- Modelled from the spec: the rate-per-mile display the specification
asks for, where `distanceMiles = 0` yields an explicit unavailable value
(`none`) instead of a silent division.  No such guard exists in the
source; this definition exists only to be compared with `ratePerMile`. -/
def ratePerMileSpec (e : PriceEstimate) : Option ℚ :=
  match parseDecimal (sliceOne e.price_estimate) with
  | some q => if e.distance = 0 then none else some (q / e.distance)
  | none => none

/-! ### Cab-flow component state -/

/-- The `useState` hooks of `App`, minus presentation-only state
(`currentTab`, `loading` is kept since handlers write it). -/
structure CabState where
  pickup : String
  dropoff : String
  passengerCount : Int
  estimates : List PriceEstimate
  loading : Bool
  pickupOptions : List String
  dropoffOptions : List String
  snackbar : Snackbar
  phoneNumber : String
  targetPrice : Option ℚ
  trackedRoutes : List TrackedRoute
  showTrackedRoutes : Bool
  errors : FieldErrors
deriving DecidableEq

/-- The initial state of the `useState` hooks. -/
def initCabState : CabState where
  pickup := ""
  dropoff := ""
  passengerCount := 1
  estimates := []
  loading := false
  pickupOptions := []
  dropoffOptions := []
  snackbar := { openFlag := false, message := "", severity := Severity.success }
  phoneNumber := ""
  targetPrice := none
  trackedRoutes := []
  showTrackedRoutes := false
  errors := { pickup := none, dropoff := none }

/-- Handler `handleSnackbarClose`: `{ ...snackbar, open: false }`. -/
def handleSnackbarClose (s : CabState) : CabState :=
  { s with snackbar := { s.snackbar with openFlag := false } }

/-- The body posted to `/track-route` by `trackRoute`: the target price
is parsed from the estimate's displayed price string with the `$`
stripped, not read from the Target Price field. -/
def mkTrackRouteBody (s : CabState) (estimate : PriceEstimate) : TrackRouteBody where
  pickup_address := estimate.pickup
  dropoff_address := estimate.dropoff
  passenger_count := s.passengerCount
  phone_number := s.phoneNumber
  target_price := parseDecimal (replaceFirstDollar estimate.price_estimate)

/-- Expression `phoneNumber.startsWith('+') ? phoneNumber : '+' + phoneNumber`. -/
def formatNumber (p : String) : String :=
  match p.data with
  | '+' :: _ => p
  | _ => "+" ++ p

/-- Handler `fetchTrackedRoutes`: no-op on an empty phone number; otherwise GET
`/tracked-routes/{formatted}` and either store the routes or (on
transport failure) log and raise the fetch-failure notice. -/
def fetchTrackedRoutes (s : CabState) (outcome : Except Unit (List TrackedRoute)) :
    CabState × List NetCall × List String :=
  if s.phoneNumber = "" then (s, [], [])
  else
    match outcome with
    | Except.ok routes =>
        ({ s with trackedRoutes := routes },
          [NetCall.getTrackedRoutes (formatNumber s.phoneNumber)], [])
    | Except.error _ =>
        ({ s with snackbar := errorNotice fetchRoutesFailMsg },
          [NetCall.getTrackedRoutes (formatNumber s.phoneNumber)], [fetchRoutesFailLog])

/-- Handler `trackRoute`: validate the phone number against the E.164 regex
before any call; on a valid number POST `/track-route`, then on success
show the success notice and refresh via `fetchTrackedRoutes` (whose own
outcome is the second `Except` argument). -/
def trackRoute (s : CabState) (estimate : PriceEstimate)
    (postOutcome : Except Unit Unit)
    (fetchOutcome : Except Unit (List TrackedRoute)) :
    CabState × List NetCall × List String :=
  if matchesE164 s.phoneNumber then
    match postOutcome with
    | Except.ok _ =>
        let s1 := { s with snackbar := successNotice trackSuccessMsg }
        let r := fetchTrackedRoutes s1 fetchOutcome
        (r.1, NetCall.postTrackRoute (mkTrackRouteBody s estimate) :: r.2.1, r.2.2)
    | Except.error _ =>
        ({ s with snackbar := errorNotice trackFailMsg },
          [NetCall.postTrackRoute (mkTrackRouteBody s estimate)], [])
  else
    ({ s with snackbar := errorNotice invalidPhoneMsg }, [], [])

/-- Handler `deleteTrackedRoute`: DELETE, then on success show the notice and
refresh via `fetchTrackedRoutes`. -/
def deleteTrackedRoute (s : CabState) (routeId : Nat)
    (deleteOutcome : Except Unit Unit)
    (fetchOutcome : Except Unit (List TrackedRoute)) :
    CabState × List NetCall × List String :=
  match deleteOutcome with
  | Except.ok _ =>
      let s1 := { s with snackbar := successNotice deleteSuccessMsg }
      let r := fetchTrackedRoutes s1 fetchOutcome
      (r.1, NetCall.deleteTrackedRoute routeId :: r.2.1, r.2.2)
  | Except.error _ =>
      ({ s with snackbar := errorNotice deleteFailMsg },
        [NetCall.deleteTrackedRoute routeId], [])

/-- Helper `formatDuration`: hours and minutes from a second count. -/
def formatDuration (seconds : Nat) : String :=
  let hours := seconds / 3600
  let minutes := seconds % 3600 / 60
  if hours > 0 then toString hours ++ "h " ++ toString minutes ++ "m"
  else toString minutes ++ " minutes"

/-- Handler `comparePrices`: clear the field errors, early-return with a
field-scoped message when pickup (checked first) or dropoff is empty,
otherwise POST `/compare-prices` and either replace the estimates or (on
transport failure) raise the failure notice, leaving the estimates as
they were. -/
def comparePrices (s : CabState) (outcome : Except Unit (List PriceEstimate)) :
    CabState × List NetCall × List String :=
  let s0 : CabState := { s with errors := { pickup := none, dropoff := none } }
  if s0.pickup = "" then
    ({ s0 with errors := { pickup := some pickupErrMsg, dropoff := none } }, [], [])
  else if s0.dropoff = "" then
    ({ s0 with errors := { pickup := none, dropoff := some dropoffErrMsg } }, [], [])
  else
    let body : CompareBody :=
      { pickup_address := s0.pickup, dropoff_address := s0.dropoff,
        passenger_count := s0.passengerCount }
    match outcome with
    | Except.ok ests =>
        ({ s0 with loading := false, estimates := ests },
          [NetCall.postComparePrices body], [])
    | Except.error _ =>
        ({ s0 with loading := false, snackbar := errorNotice compareFailMsg },
          [NetCall.postComparePrices body], [])

/-- Handler `onInputChange` of the pickup autocomplete: store the text; for a
non-empty query GET the city suggestions and either store them or (on
transport failure) only log. -/
def pickupInputChange (s : CabState) (newValue : String)
    (outcome : Except Unit (List String)) :
    CabState × List NetCall × List String :=
  let s0 := { s with pickup := newValue }
  if newValue.length ≥ 1 then
    match outcome with
    | Except.ok opts =>
        ({ s0 with pickupOptions := opts },
          [NetCall.getCityAutocomplete newValue], [])
    | Except.error _ =>
        (s0, [NetCall.getCityAutocomplete newValue], [citySuggestFailLog])
  else (s0, [], [])

/-- Handler `onInputChange` of the dropoff autocomplete, symmetric to
`pickupInputChange`. -/
def dropoffInputChange (s : CabState) (newValue : String)
    (outcome : Except Unit (List String)) :
    CabState × List NetCall × List String :=
  let s0 := { s with dropoff := newValue }
  if newValue.length ≥ 1 then
    match outcome with
    | Except.ok opts =>
        ({ s0 with dropoffOptions := opts },
          [NetCall.getCityAutocomplete newValue], [])
    | Except.error _ =>
        (s0, [NetCall.getCityAutocomplete newValue], [citySuggestFailLog])
  else (s0, [], [])

/-- Handler `onChange` of the passenger-count field:
`Math.max(1, Math.min(7, parseInt(value) || 1))`. -/
def passengerInputChange (s : CabState) (value : String) : CabState :=
  { s with passengerCount := max 1 (min 7 (jsTruthyIntOr1 (jsParseInt value))) }

/-! ### The cab-flow event system -/

/-- One user- or effect-triggered event of the cab flow, carrying the
transport outcome of any request the handler issues. -/
inductive CabEvent
  | setPickupInput (value : String) (o : Except Unit (List String))
  | setDropoffInput (value : String) (o : Except Unit (List String))
  | setPassengerInput (value : String)
  | setPhone (value : String)
  | setTargetPrice (value : Option ℚ)
  | compare (o : Except Unit (List PriceEstimate))
  | track (estimate : PriceEstimate) (po : Except Unit Unit)
      (fo : Except Unit (List TrackedRoute))
  | fetchRoutes (o : Except Unit (List TrackedRoute))
  | deleteRoute (id : Nat) (po : Except Unit Unit)
      (fo : Except Unit (List TrackedRoute))
  | toggleTracked
  | closeSnackbar

/-- Dispatch one event to its handler. -/
def step (s : CabState) : CabEvent → CabState × List NetCall × List String
  | CabEvent.setPickupInput v o => pickupInputChange s v o
  | CabEvent.setDropoffInput v o => dropoffInputChange s v o
  | CabEvent.setPassengerInput v => (passengerInputChange s v, [], [])
  | CabEvent.setPhone v => ({ s with phoneNumber := v }, [], [])
  | CabEvent.setTargetPrice v => ({ s with targetPrice := v }, [], [])
  | CabEvent.compare o => comparePrices s o
  | CabEvent.track e po fo => trackRoute s e po fo
  | CabEvent.fetchRoutes o => fetchTrackedRoutes s o
  | CabEvent.deleteRoute id po fo => deleteTrackedRoute s id po fo
  | CabEvent.toggleTracked => ({ s with showTrackedRoutes := !s.showTrackedRoutes }, [], [])
  | CabEvent.closeSnackbar => (handleSnackbarClose s, [], [])

/-- Run a list of events, collecting every network call issued. -/
def runWithCalls : CabState → List CabEvent → CabState × List NetCall
  | s, [] => (s, [])
  | s, e :: evs =>
      ((runWithCalls (step s e).1 evs).1,
        (step s e).2.1 ++ (runWithCalls (step s e).1 evs).2)

/-- All network calls issued by a run starting from the initial state. -/
def cabCallsFromInit (evs : List CabEvent) : List NetCall :=
  (runWithCalls initCabState evs).2

/-! ### Flight-flow component state -/

/-- The `FlightEstimate` interface. -/
structure FlightEstimate where
  airline : String
  price : ℚ
  departure : String
  arrival : String
  duration : Nat
  stops : Nat
  recommended : Bool
deriving DecidableEq

/-- The `useState` hooks of `FlightComparison`.  Dates are carried as
ISO strings. -/
structure FlightState where
  origin : String
  destination : String
  departureDate : Option String
  returnDate : Option String
  passengers : Int
  cabinClass : String
  estimates : List FlightEstimate
  loading : Bool
  cityOptions : List String
  snackbar : Snackbar
deriving DecidableEq

/-- The initial state of the `FlightComparison` hooks. -/
def initFlightState : FlightState where
  origin := ""
  destination := ""
  departureDate := none
  returnDate := none
  passengers := 1
  cabinClass := "economy"
  estimates := []
  loading := false
  cityOptions := []
  snackbar := { openFlag := false, message := "", severity := Severity.success }

/-- Which autocomplete field triggered the city search. -/
inductive CityField
  | origin
  | destination
deriving DecidableEq

/-- Handler `handleCitySearch(query, type)`: for a query of length at least 2,
GET the city suggestions and either store them in the single shared
`cityOptions` state or (on transport failure) log and raise the
city-suggestion failure notice.  The `fieldType` argument is unused,
exactly as `type` is in the source. -/
def handleCitySearch (s : FlightState) (query : String) (fieldType : CityField)
    (outcome : Except Unit (List String)) :
    FlightState × List NetCall × List String :=
  if query.length ≥ 2 then
    match outcome with
    | Except.ok opts =>
        ({ s with cityOptions := opts },
          [NetCall.getCityAutocomplete query], [])
    | Except.error _ =>
        ({ s with snackbar := errorNotice citySuggestFailMsg },
          [NetCall.getCityAutocomplete query], [citySuggestFailLog])
  else (s, [], [])

/-- Handler `onInputChange` of the origin autocomplete: store the text, then
`handleCitySearch(value, 'origin')`. -/
def originInputChange (s : FlightState) (value : String)
    (outcome : Except Unit (List String)) :
    FlightState × List NetCall × List String :=
  handleCitySearch { s with origin := value } value CityField.origin outcome

/-- Handler `onInputChange` of the destination autocomplete: store the text,
then `handleCitySearch(value, 'destination')`. -/
def destinationInputChange (s : FlightState) (value : String)
    (outcome : Except Unit (List String)) :
    FlightState × List NetCall × List String :=
  handleCitySearch { s with destination := value } value CityField.destination outcome

/-- The option list rendered by the origin autocomplete
(`options={cityOptions}`). -/
def originOptionsShown (s : FlightState) : List String := s.cityOptions

/-- The option list rendered by the destination autocomplete
(`options={cityOptions}`). -/
def destinationOptionsShown (s : FlightState) : List String := s.cityOptions

/-! ### Sample values used by concrete witnesses -/

/-- A sample price estimate as the backend would return it. -/
def sampleEstimate : PriceEstimate where
  service := "UberX"
  price_estimate := "$23.50"
  duration := 3661
  distance := 5
  pickup := "Manhattan"
  dropoff := "Brooklyn"
  app_url := "uber://"
  web_url := "https://m.uber.com"
  recommended := true
  capacity := "4 passengers"

/-- The sample estimate with a zero distance. -/
def zeroDistanceEstimate : PriceEstimate := { sampleEstimate with distance := 0 }

/-! ### Helper lemmas -/

/-- The price string `23.50` parses to the exact rational `47 / 2`. -/
lemma parseDecimal_2350 : parseDecimal "23.50" = some ((47 : ℚ) / 2) := by
  simp only [parseDecimal, parseFloatChars]
  simp +decide [natOfDigits, digitVal]
  norm_num

/-- Dropping the `$` from `$23.50` with `slice(1)` leaves `23.50`. -/
lemma sliceOne_dollar : sliceOne "$23.50" = "23.50" := by decide

/-- Applying `replace('$', '')` to a string starting with `$` drops exactly that
character. -/
lemma replaceFirstDollar_append (n : String) :
    replaceFirstDollar ("$" ++ n) = n := by
  obtain ⟨d⟩ := n
  simp [replaceFirstDollar, String.data_append, removeFirstChar]

/-- Both clamp orders agree: the handler's
`max 1 (min 7 (parseInt v || 1))` equals the claim's
`min 7 (max 1 (parseInt v))` with NaN defaulted to 1. -/
lemma clamp_orders_eq (x : Option Int) :
    max 1 (min 7 (jsTruthyIntOr1 x)) = min 7 (max 1 (x.getD 1)) := by
  cases x with
  | none => simp [jsTruthyIntOr1]
  | some n =>
      by_cases h : n = 0 <;> simp [jsTruthyIntOr1, h] <;> omega

/-- Running `fetchTrackedRoutes` never changes the passenger count. -/
lemma fetchTrackedRoutes_pc (s : CabState) (o : Except Unit (List TrackedRoute)) :
    (fetchTrackedRoutes s o).1.passengerCount = s.passengerCount := by
  unfold fetchTrackedRoutes
  split
  · rfl
  · cases o <;> rfl

/-- Running `trackRoute` never changes the passenger count. -/
lemma trackRoute_pc (s : CabState) (e : PriceEstimate)
    (po : Except Unit Unit) (fo : Except Unit (List TrackedRoute)) :
    (trackRoute s e po fo).1.passengerCount = s.passengerCount := by
  unfold trackRoute
  split
  · cases po with
    | ok a =>
        show (fetchTrackedRoutes { s with snackbar := successNotice trackSuccessMsg }
            fo).1.passengerCount = s.passengerCount
        rw [fetchTrackedRoutes_pc]
    | error a => rfl
  · rfl

/-- Running `deleteTrackedRoute` never changes the passenger count. -/
lemma deleteTrackedRoute_pc (s : CabState) (id : Nat)
    (po : Except Unit Unit) (fo : Except Unit (List TrackedRoute)) :
    (deleteTrackedRoute s id po fo).1.passengerCount = s.passengerCount := by
  unfold deleteTrackedRoute
  cases po with
  | ok a =>
      show (fetchTrackedRoutes { s with snackbar := successNotice deleteSuccessMsg }
          fo).1.passengerCount = s.passengerCount
      rw [fetchTrackedRoutes_pc]
  | error a => rfl

/-- Running `comparePrices` never changes the passenger count. -/
lemma comparePrices_pc (s : CabState) (o : Except Unit (List PriceEstimate)) :
    (comparePrices s o).1.passengerCount = s.passengerCount := by
  by_cases hp : s.pickup = ""
  · simp [comparePrices, hp]
  · by_cases hd : s.dropoff = ""
    · simp [comparePrices, hp, hd]
    · cases o <;> simp [comparePrices, hp, hd]

/-- Running `pickupInputChange` never changes the passenger count. -/
lemma pickupInputChange_pc (s : CabState) (v : String)
    (o : Except Unit (List String)) :
    (pickupInputChange s v o).1.passengerCount = s.passengerCount := by
  unfold pickupInputChange
  split
  · cases o <;> rfl
  · rfl

/-- Running `dropoffInputChange` never changes the passenger count. -/
lemma dropoffInputChange_pc (s : CabState) (v : String)
    (o : Except Unit (List String)) :
    (dropoffInputChange s v o).1.passengerCount = s.passengerCount := by
  unfold dropoffInputChange
  split
  · cases o <;> rfl
  · rfl

/-- Every step preserves the passenger-count range `[1..7]`. -/
lemma step_pc_bound (s : CabState) (e : CabEvent)
    (h1 : 1 ≤ s.passengerCount) (h7 : s.passengerCount ≤ 7) :
    1 ≤ (step s e).1.passengerCount ∧ (step s e).1.passengerCount ≤ 7 := by
  cases e with
  | setPickupInput v o =>
      have h : (step s (CabEvent.setPickupInput v o)).1.passengerCount
          = s.passengerCount := pickupInputChange_pc s v o
      omega
  | setDropoffInput v o =>
      have h : (step s (CabEvent.setDropoffInput v o)).1.passengerCount
          = s.passengerCount := dropoffInputChange_pc s v o
      omega
  | setPassengerInput v =>
      have h : (step s (CabEvent.setPassengerInput v)).1.passengerCount
          = max 1 (min 7 (jsTruthyIntOr1 (jsParseInt v))) := rfl
      omega
  | setPhone v => exact ⟨h1, h7⟩
  | setTargetPrice v => exact ⟨h1, h7⟩
  | compare o =>
      have h : (step s (CabEvent.compare o)).1.passengerCount
          = s.passengerCount := comparePrices_pc s o
      omega
  | track est po fo =>
      have h : (step s (CabEvent.track est po fo)).1.passengerCount
          = s.passengerCount := trackRoute_pc s est po fo
      omega
  | fetchRoutes o =>
      have h : (step s (CabEvent.fetchRoutes o)).1.passengerCount
          = s.passengerCount := fetchTrackedRoutes_pc s o
      omega
  | deleteRoute id po fo =>
      have h : (step s (CabEvent.deleteRoute id po fo)).1.passengerCount
          = s.passengerCount := deleteTrackedRoute_pc s id po fo
      omega
  | toggleTracked => exact ⟨h1, h7⟩
  | closeSnackbar => exact ⟨h1, h7⟩

/-- The calls a `fetchTrackedRoutes` step issues: none, or one GET. -/
lemma fetchTrackedRoutes_calls (s : CabState) (o : Except Unit (List TrackedRoute)) :
    (fetchTrackedRoutes s o).2.1 = [] ∨
    (fetchTrackedRoutes s o).2.1 =
      [NetCall.getTrackedRoutes (formatNumber s.phoneNumber)] := by
  unfold fetchTrackedRoutes
  split
  · exact Or.inl rfl
  · cases o
    · exact Or.inr rfl
    · exact Or.inr rfl

/-- The calls a `pickupInputChange` step issues: none, or one GET. -/
lemma pickupInputChange_calls (s : CabState) (v : String)
    (o : Except Unit (List String)) :
    (pickupInputChange s v o).2.1 = [] ∨
    (pickupInputChange s v o).2.1 = [NetCall.getCityAutocomplete v] := by
  unfold pickupInputChange
  split
  · cases o
    · exact Or.inr rfl
    · exact Or.inr rfl
  · exact Or.inl rfl

/-- The calls a `dropoffInputChange` step issues: none, or one GET. -/
lemma dropoffInputChange_calls (s : CabState) (v : String)
    (o : Except Unit (List String)) :
    (dropoffInputChange s v o).2.1 = [] ∨
    (dropoffInputChange s v o).2.1 = [NetCall.getCityAutocomplete v] := by
  unfold dropoffInputChange
  split
  · cases o
    · exact Or.inr rfl
    · exact Or.inr rfl
  · exact Or.inl rfl

/-- The calls a `comparePrices` step issues: none, or the one POST whose
body carries the state's passenger count. -/
lemma comparePrices_calls (s : CabState) (o : Except Unit (List PriceEstimate)) :
    (comparePrices s o).2.1 = [] ∨
    (comparePrices s o).2.1 =
      [NetCall.postComparePrices
        { pickup_address := s.pickup, dropoff_address := s.dropoff,
          passenger_count := s.passengerCount }] := by
  by_cases hp : s.pickup = ""
  · left
    simp [comparePrices, hp]
  · by_cases hd : s.dropoff = ""
    · left
      simp [comparePrices, hp, hd]
    · right
      cases o <;> simp [comparePrices, hp, hd]

/-- Running `trackRoute` never issues a compare-prices call. -/
lemma trackRoute_no_compare (s : CabState) (e : PriceEstimate)
    (po : Except Unit Unit) (fo : Except Unit (List TrackedRoute))
    (b : CompareBody) :
    NetCall.postComparePrices b ∉ (trackRoute s e po fo).2.1 := by
  unfold trackRoute
  split
  · cases po with
    | ok a =>
        show NetCall.postComparePrices b ∉
          NetCall.postTrackRoute (mkTrackRouteBody s e) ::
            (fetchTrackedRoutes { s with snackbar := successNotice trackSuccessMsg }
              fo).2.1
        rcases fetchTrackedRoutes_calls
            { s with snackbar := successNotice trackSuccessMsg } fo with hc | hc <;>
          rw [hc] <;> simp
    | error a => simp
  · simp

/-- Any compare-prices body a single step sends carries the passenger
count of the state the step ran in. -/
lemma step_compare_call (s : CabState) (e : CabEvent) (b : CompareBody)
    (hb : NetCall.postComparePrices b ∈ (step s e).2.1) :
    b.passenger_count = s.passengerCount := by
  cases e with
  | setPickupInput v o =>
      have hb2 : NetCall.postComparePrices b ∈ (pickupInputChange s v o).2.1 := hb
      rcases pickupInputChange_calls s v o with hc | hc <;> rw [hc] at hb2 <;>
        simp at hb2
  | setDropoffInput v o =>
      have hb2 : NetCall.postComparePrices b ∈ (dropoffInputChange s v o).2.1 := hb
      rcases dropoffInputChange_calls s v o with hc | hc <;> rw [hc] at hb2 <;>
        simp at hb2
  | setPassengerInput v => simp [step] at hb
  | setPhone v => simp [step] at hb
  | setTargetPrice v => simp [step] at hb
  | compare o =>
      have hb2 : NetCall.postComparePrices b ∈ (comparePrices s o).2.1 := hb
      rcases comparePrices_calls s o with hc | hc
      · rw [hc] at hb2
        simp at hb2
      · rw [hc] at hb2
        simp only [List.mem_singleton, NetCall.postComparePrices.injEq] at hb2
        rw [hb2]
  | track est po fo =>
      exact absurd hb (trackRoute_no_compare s est po fo b)
  | fetchRoutes o =>
      have hb2 : NetCall.postComparePrices b ∈ (fetchTrackedRoutes s o).2.1 := hb
      rcases fetchTrackedRoutes_calls s o with hc | hc <;> rw [hc] at hb2 <;>
        simp at hb2
  | deleteRoute id po fo =>
      have hb2 : NetCall.postComparePrices b ∈ (deleteTrackedRoute s id po fo).2.1 := hb
      revert hb2
      unfold deleteTrackedRoute
      cases po with
      | ok a =>
          show NetCall.postComparePrices b ∈
            NetCall.deleteTrackedRoute id ::
              (fetchTrackedRoutes
                { s with snackbar := successNotice deleteSuccessMsg } fo).2.1 →
            b.passenger_count = s.passengerCount
          intro hb2
          rcases fetchTrackedRoutes_calls
              { s with snackbar := successNotice deleteSuccessMsg } fo with hc | hc <;>
            rw [hc] at hb2 <;> simp at hb2
      | error a => intro hb2; simp at hb2
  | toggleTracked => simp [step] at hb
  | closeSnackbar => simp [step] at hb

/-- Along any run from a state whose passenger count is in `[1..7]`,
every compare-prices body sent stays in `[1..7]`. -/
lemma runWithCalls_compare_bound (evs : List CabEvent) :
    ∀ s : CabState, 1 ≤ s.passengerCount → s.passengerCount ≤ 7 →
      ∀ b : CompareBody, NetCall.postComparePrices b ∈ (runWithCalls s evs).2 →
        1 ≤ b.passenger_count ∧ b.passenger_count ≤ 7 := by
  induction evs with
  | nil =>
      intro s _ _ b hb
      simp [runWithCalls] at hb
  | cons e evs ih =>
      intro s h1 h7 b hb
      simp only [runWithCalls, List.mem_append] at hb
      rcases hb with hb | hb
      · have hpc := step_compare_call s e b hb
        omega
      · obtain ⟨g1, g7⟩ := step_pc_bound s e h1 h7
        exact ih (step s e).1 g1 g7 b hb

/-! ### Claim theorems -/

/-- C3: when a compare-prices request fails in transport, the
`RequestFailed` error notice (the fixed `compareFailMsg`) is shown and
the previously displayed estimate sequence is exactly unchanged. -/
theorem C3_compare_failure_preserves_estimates (s : CabState)
    (hp : s.pickup ≠ "") (hd : s.dropoff ≠ "") :
    (comparePrices s (Except.error ())).1.estimates = s.estimates ∧
    (comparePrices s (Except.error ())).1.snackbar = errorNotice compareFailMsg := by
  constructor <;> simp [comparePrices, hp, hd]

/-- A prior state holding one estimate from an earlier successful call. -/
def c3PriorState : CabState :=
  { initCabState with
    pickup := "Manhattan"
    dropoff := "Brooklyn"
    estimates := [sampleEstimate] }

/-- Witness for C3 at a concrete prior state. -/
theorem C3_compare_failure_preserves_estimates_witness :
    (comparePrices c3PriorState (Except.error ())).1.estimates = c3PriorState.estimates ∧
    (comparePrices c3PriorState (Except.error ())).1.snackbar =
      errorNotice compareFailMsg :=
  C3_compare_failure_preserves_estimates c3PriorState (by decide) (by decide)

/-- C4 counterexample: submitting with both fields empty (the initial
state) reports only the pickup error — the dropoff error the claim
requires is absent — and issues no network call. -/
theorem C4_both_empty_counterexample :
    (comparePrices initCabState (Except.ok [])).1.errors.dropoff = none ∧
    (comparePrices initCabState (Except.ok [])).1.errors.pickup = some pickupErrMsg ∧
    (comparePrices initCabState (Except.ok [])).2.1 = [] := by
  refine ⟨by decide, by decide, by decide⟩

/-- C4 amended: submitting with both pickup and dropoff empty yields a
pickup-only validation error (the early return skips the dropoff check)
and no network call. -/
theorem C4_both_empty_pickup_only (s : CabState)
    (o : Except Unit (List PriceEstimate))
    (hp : s.pickup = "") (hd : s.dropoff = "") :
    (comparePrices s o).1.errors =
      { pickup := some pickupErrMsg, dropoff := none } ∧
    (comparePrices s o).2.1 = [] := by
  constructor <;> simp [comparePrices, hp]

/-- Witness for the amended C4 at the initial (both empty) state. -/
theorem C4_both_empty_pickup_only_witness :
    (comparePrices initCabState (Except.ok [])).1.errors =
      { pickup := some pickupErrMsg, dropoff := none } ∧
    (comparePrices initCabState (Except.ok [])).2.1 = [] :=
  C4_both_empty_pickup_only initCabState (Except.ok []) (by decide) (by decide)

/-- C5: submitting with an empty pickup and a non-empty dropoff yields a
pickup-only validation error and zero network calls. -/
theorem C5_empty_pickup_only_error (s : CabState)
    (o : Except Unit (List PriceEstimate))
    (hp : s.pickup = "") (hd : s.dropoff ≠ "") :
    (comparePrices s o).1.errors =
      { pickup := some pickupErrMsg, dropoff := none } ∧
    (comparePrices s o).2.1 = [] := by
  constructor <;> simp [comparePrices, hp]

/-- Witness for C5 with an empty pickup and dropoff `Brooklyn`. -/
theorem C5_empty_pickup_only_error_witness :
    (comparePrices { initCabState with dropoff := "Brooklyn" } (Except.ok [])).1.errors =
      { pickup := some pickupErrMsg, dropoff := none } ∧
    (comparePrices { initCabState with dropoff := "Brooklyn" } (Except.ok [])).2.1 = [] :=
  C5_empty_pickup_only_error { initCabState with dropoff := "Brooklyn" }
    (Except.ok []) (by decide) (by decide)

/-- C7: `formatDuration` renders `floor(s/3600)` hours and
`floor(s%3600/60)` minutes as `"{h}h {m}m"` when hours are positive and
`"{m} minutes"` otherwise; in particular on 0, 3661 and 7200. -/
theorem C7_formatDuration_spec :
    formatDuration 0 = "0 minutes" ∧
    formatDuration 3661 = "1h 1m" ∧
    formatDuration 7200 = "2h 0m" ∧
    ∀ s : Nat, formatDuration s =
      if s / 3600 > 0 then
        toString (s / 3600) ++ "h " ++ toString (s % 3600 / 60) ++ "m"
      else toString (s % 3600 / 60) ++ " minutes" :=
  ⟨by decide, by decide, by decide, fun _ => rfl⟩

/-- C1 counterexample: `fetchTrackedRoutes` does not gate on the E.164
regex.  With the non-matching phone number `abc` it still issues the GET
(with a `+` prefixed) and raises no notice, contradicting the claim that
every non-matching number fails with an `InvalidPhoneNumber` notice and
no network call. -/
theorem C1_list_regex_counterexample :
    matchesE164 "abc" = false ∧
    (fetchTrackedRoutes { initCabState with phoneNumber := "abc" }
        (Except.ok [])).2.1 = [NetCall.getTrackedRoutes "+abc"] ∧
    (fetchTrackedRoutes { initCabState with phoneNumber := "abc" }
        (Except.ok [])).1.snackbar = initCabState.snackbar := by
  refine ⟨by decide, by decide, by decide⟩

/-- C1 amended: `trackRoute` accepts the phone number and issues its
POST iff the number matches the E.164 regex, failing with the
invalid-phone notice and no call otherwise; `fetchTrackedRoutes` instead
issues its GET iff the phone number is non-empty, with a `+` prefixed
when absent and no regex check. -/
theorem C1_phone_validation (s : CabState) (e : PriceEstimate)
    (po : Except Unit Unit) (fo : Except Unit (List TrackedRoute)) :
    (matchesE164 s.phoneNumber = false →
      (trackRoute s e po fo).2.1 = [] ∧
      (trackRoute s e po fo).1.snackbar = errorNotice invalidPhoneMsg) ∧
    (matchesE164 s.phoneNumber = true →
      (trackRoute s e po fo).2.1.head? =
        some (NetCall.postTrackRoute (mkTrackRouteBody s e))) ∧
    (s.phoneNumber = "" → (fetchTrackedRoutes s fo).2.1 = []) ∧
    (s.phoneNumber ≠ "" →
      (fetchTrackedRoutes s fo).2.1 =
        [NetCall.getTrackedRoutes (formatNumber s.phoneNumber)]) := by
  refine ⟨fun h => ?_, fun h => ?_, fun h => ?_, fun h => ?_⟩
  · simp [trackRoute, h]
  · cases po <;> simp [trackRoute, h]
  · simp [fetchTrackedRoutes, h]
  · cases fo <;> simp [fetchTrackedRoutes, h]

/-- Witness for the amended C1 with a valid-shaped number. -/
theorem C1_phone_validation_witness :
    (fetchTrackedRoutes { initCabState with phoneNumber := "+12345678901" }
        (Except.ok [])).2.1 =
      [NetCall.getTrackedRoutes
        (formatNumber
          ({ initCabState with phoneNumber := "+12345678901" } : CabState).phoneNumber)] :=
  (C1_phone_validation { initCabState with phoneNumber := "+12345678901" }
      sampleEstimate (Except.ok ()) (Except.ok [])).2.2.2 (by decide)

/-- C2 counterexample: in the flight flow, a transport error of the
city-suggestion request does raise an error notice (`handleCitySearch`
sets the snackbar), contradicting the claim that such errors are only
logged in both flows. -/
theorem C2_flight_notice_counterexample :
    (handleCitySearch initFlightState "Lo" CityField.origin
        (Except.error ())).1.snackbar = errorNotice citySuggestFailMsg ∧
    errorNotice citySuggestFailMsg ≠ initFlightState.snackbar := by
  refine ⟨by decide, by decide⟩

/-- C2 amended: in the cab flow a transport error of the city-suggestion
request is only logged — the snackbar, the field errors and the estimate
list are untouched — while in the flight flow `handleCitySearch` raises
an error notice on such a failure. -/
theorem C2_autocomplete_error_handling (s : CabState) (fs : FlightState)
    (v q : String) :
    ((pickupInputChange s v (Except.error ())).1.snackbar = s.snackbar ∧
      (pickupInputChange s v (Except.error ())).1.errors = s.errors ∧
      (pickupInputChange s v (Except.error ())).1.estimates = s.estimates) ∧
    ((dropoffInputChange s v (Except.error ())).1.snackbar = s.snackbar ∧
      (dropoffInputChange s v (Except.error ())).1.errors = s.errors ∧
      (dropoffInputChange s v (Except.error ())).1.estimates = s.estimates) ∧
    (v.length ≥ 1 →
      (pickupInputChange s v (Except.error ())).2.2 = [citySuggestFailLog]) ∧
    (q.length ≥ 2 →
      (handleCitySearch fs q CityField.origin (Except.error ())).1.snackbar =
        errorNotice citySuggestFailMsg) := by
  refine ⟨?_, ?_, fun h => ?_, fun h => ?_⟩
  · by_cases hv : v.length ≥ 1 <;>
      refine ⟨?_, ?_, ?_⟩ <;> simp [pickupInputChange, hv]
  · by_cases hv : v.length ≥ 1 <;>
      refine ⟨?_, ?_, ?_⟩ <;> simp [dropoffInputChange, hv]
  · simp [pickupInputChange, h]
  · simp [handleCitySearch, h]

/-- Witness for the amended C2 at concrete queries. -/
theorem C2_autocomplete_error_handling_witness :
    (pickupInputChange initCabState "M" (Except.error ())).2.2 =
      [citySuggestFailLog] ∧
    (handleCitySearch initFlightState "Lo" CityField.origin
        (Except.error ())).1.snackbar = errorNotice citySuggestFailMsg :=
  ⟨(C2_autocomplete_error_handling initCabState initFlightState "M" "Lo").2.2.1
      (by decide),
    (C2_autocomplete_error_handling initCabState initFlightState "M" "Lo").2.2.2
      (by decide)⟩

/-- C10: `handleCitySearch` ignores which field triggered it, and a
successful suggestion response for a query of length at least 2 replaces
the single shared option list rendered by both the origin and the
destination autocomplete. -/
theorem C10_shared_city_options (fs : FlightState) (q : String)
    (o : Except Unit (List String)) (t1 t2 : CityField) (opts : List String) :
    handleCitySearch fs q t1 o = handleCitySearch fs q t2 o ∧
    (q.length ≥ 2 → o = Except.ok opts →
      originOptionsShown (handleCitySearch fs q t1 o).1 = opts ∧
      destinationOptionsShown (handleCitySearch fs q t1 o).1 = opts) := by
  refine ⟨rfl, fun hq ho => ?_⟩
  subst ho
  constructor <;>
    simp [handleCitySearch, originOptionsShown, destinationOptionsShown, hq]

/-- Witness for C10: a query from the origin field fills the option
lists of both fields. -/
theorem C10_shared_city_options_witness :
    originOptionsShown
        (handleCitySearch initFlightState "Lo" CityField.origin
          (Except.ok ["London"])).1 = ["London"] ∧
    destinationOptionsShown
        (handleCitySearch initFlightState "Lo" CityField.origin
          (Except.ok ["London"])).1 = ["London"] :=
  (C10_shared_city_options initFlightState "Lo" (Except.ok ["London"])
      CityField.origin CityField.destination ["London"]).2 (by decide) rfl

/-- C6 counterexample: at a zero distance the rate-per-mile display is
exactly the result of the silent division — the IEEE `Infinity` — and
not an explicit unavailable value; the spec-modelled guarded display
would render the unavailable marker there. -/
theorem C6_zero_distance_counterexample :
    ratePerMile zeroDistanceEstimate = jsDiv ((47 : ℚ) / 2) 0 ∧
    jsDiv ((47 : ℚ) / 2) 0 = JsNum.posInf ∧
    ratePerMileSpec zeroDistanceEstimate = none := by
  have hp : parseDecimal (sliceOne zeroDistanceEstimate.price_estimate)
      = some ((47 : ℚ) / 2) := by
    rw [show sliceOne zeroDistanceEstimate.price_estimate = "23.50" from by decide]
    exact parseDecimal_2350
  refine ⟨?_, ?_, ?_⟩
  · unfold ratePerMile
    rw [hp]
    rfl
  · unfold jsDiv
    norm_num
  · unfold ratePerMileSpec
    rw [hp]
    show (if zeroDistanceEstimate.distance = 0 then none
        else some ((47 : ℚ) / 2 / zeroDistanceEstimate.distance)) = none
    rw [if_pos (show zeroDistanceEstimate.distance = 0 from rfl)]

/-- C6 amended: the rate-per-mile display equals the parsed price
divided by the distance whenever the distance is non-zero; at distance
zero the code silently performs the JS division (yielding infinity or
NaN), with no explicit unavailable handling. -/
theorem C6_rate_display (e : PriceEstimate) (q : ℚ)
    (h : parseDecimal (sliceOne e.price_estimate) = some q) :
    (e.distance ≠ 0 → ratePerMile e = JsNum.finite (q / e.distance)) ∧
    (e.distance = 0 → ratePerMile e = jsDiv q 0) := by
  constructor
  · intro hd
    unfold ratePerMile
    rw [h]
    simp [jsDiv, hd]
  · intro hd
    unfold ratePerMile
    rw [h, hd]

/-- Witness for the amended C6 at the sample estimate (distance 5). -/
theorem C6_rate_display_witness :
    ratePerMile sampleEstimate = JsNum.finite ((47 : ℚ) / 2 / sampleEstimate.distance) :=
  (C6_rate_display sampleEstimate ((47 : ℚ) / 2)
      (by
        rw [show sliceOne sampleEstimate.price_estimate = "23.50" from by decide]
        exact parseDecimal_2350)).1
    (by
      show (5 : ℚ) ≠ 0
      norm_num)

/-- C8: the tracked target price is the estimate's displayed price with
the `$` stripped, parsed exactly as a decimal (`$23.50` gives `47 / 2`);
it does not depend on the separately entered Target Price field, and it
is what `trackRoute` actually posts when the phone number is valid. -/
theorem C8_track_target_price (s : CabState) (t : Option ℚ)
    (e : PriceEstimate) (numeral : String)
    (po : Except Unit Unit) (fo : Except Unit (List TrackedRoute)) :
    (e.price_estimate = "$" ++ numeral →
      (mkTrackRouteBody s e).target_price = parseDecimal numeral) ∧
    (e.price_estimate = "$23.50" →
      (mkTrackRouteBody s e).target_price = some ((47 : ℚ) / 2)) ∧
    mkTrackRouteBody { s with targetPrice := t } e = mkTrackRouteBody s e ∧
    (matchesE164 s.phoneNumber = true →
      NetCall.postTrackRoute (mkTrackRouteBody s e) ∈ (trackRoute s e po fo).2.1) := by
  refine ⟨fun h => ?_, fun h => ?_, rfl, fun h => ?_⟩
  · simp [mkTrackRouteBody, h, replaceFirstDollar_append]
  · simp only [mkTrackRouteBody, h]
    rw [show replaceFirstDollar "$23.50" = "23.50" from by decide]
    exact parseDecimal_2350
  · cases po <;> simp [trackRoute, h]

/-- Witness for C8 at the sample estimate. -/
theorem C8_track_target_price_witness :
    (mkTrackRouteBody initCabState sampleEstimate).target_price =
      some ((47 : ℚ) / 2) :=
  (C8_track_target_price initCabState none sampleEstimate "23.50"
      (Except.ok ()) (Except.ok [])).2.1 rfl

/-- C9: the passenger-count handler stores
`min(7, max(1, parseInt(v)))` with unparsable input defaulted to 1, and
consequently every compare-prices body sent along any event run from the
initial state carries a passenger count in `[1..7]`. -/
theorem C9_passenger_count_clamped (s : CabState) (v : String)
    (evs : List CabEvent) (b : CompareBody) :
    (passengerInputChange s v).passengerCount =
      min 7 (max 1 ((jsParseInt v).getD 1)) ∧
    (NetCall.postComparePrices b ∈ cabCallsFromInit evs →
      1 ≤ b.passenger_count ∧ b.passenger_count ≤ 7) := by
  constructor
  · show max 1 (min 7 (jsTruthyIntOr1 (jsParseInt v))) = _
    exact clamp_orders_eq (jsParseInt v)
  · intro hb
    exact runWithCalls_compare_bound evs initCabState (by decide) (by decide) b hb

/-- A concrete event run: fill both locations, type `99` passengers,
then compare. -/
def c9Events : List CabEvent :=
  [CabEvent.setPickupInput "Manhattan" (Except.ok []),
    CabEvent.setDropoffInput "Brooklyn" (Except.ok []),
    CabEvent.setPassengerInput "99",
    CabEvent.compare (Except.ok [])]

/-- The compare body that run sends: the typed `99` arrives clamped to 7. -/
def c9Body : CompareBody where
  pickup_address := "Manhattan"
  dropoff_address := "Brooklyn"
  passenger_count := 7

/-- Witness for C9: the body sent by the concrete run is in range. -/
theorem C9_passenger_count_clamped_witness :
    1 ≤ c9Body.passenger_count ∧ c9Body.passenger_count ≤ 7 :=
  (C9_passenger_count_clamped initCabState "99" c9Events c9Body).2 (by decide)

end AIrisCab
